import Mathlib

/-!
Shallow embedding of `src/main.py` (VFS Global visa appointment monitor).

The program is a single module with two parts:

* `format_appointment_message` (main.py lines 124-154): a pure function from a
  loosely-typed appointment dict to a message string.  We model Python strings
  as `List Char` (a Python `str` is a sequence of code points) and the dict as
  a structure of optional fields, mirroring the keys the source reads.

* `main` (main.py lines 30-122): an unbounded monitoring loop.  Each iteration
  consults a primary checker (`vfs_monitor.check_appointments`) and/or a
  fallback checker (`enhanced_checker.check_availability`) and sends one
  Telegram message per discovered appointment.  The checkers and the notifier
  are external collaborators; we model one iteration's external world as a
  `CycleEnv`: the outcome of the primary call, the outcome of the fallback
  call, and, for each `send_message` call performed during the iteration (in
  call order), whether that send returns normally or raises.  The body of the
  `while` loop (lines 54-106) becomes the function `runCycle`, driven over a
  list of environments by `runLoopFrom`.  `time.sleep`, logging and the
  timestamps are side effects without influence on control flow; the
  current time of a cycle is threaded through as an abstract value `t`.
-/

/-- AppointmentRecord: the appointment dict.  `format_appointment_message`
reads exactly the keys `location`, `date`, `time`, `link`, `confidence`,
`source`, `note`; none is guaranteed to be present, and a present value is a
Python string (modelled as `List Char`). -/
structure Record where
  location : Option (List Char) := none
  date : Option (List Char) := none
  time : Option (List Char) := none
  link : Option (List Char) := none
  confidence : Option (List Char) := none
  source : Option (List Char) := none
  note : Option (List Char) := none
deriving DecidableEq

/-- Python truthiness of `appointment.get(key)`: `None` and the empty string
are falsy, a non-empty string is truthy (main.py lines 131, 135, 140, 151). -/
def truthy : Option (List Char) → Bool
  | none => false
  | some s => !s.isEmpty

/-- Python `str.title()` as used on the confidence value (main.py line 137):
each maximal run of letters is capitalized on its first character and
lowercased on the rest (restricted here to the ASCII letters only, which
covers the `low`/`medium`/`high` values the source documents). -/
def pyTitle (s : List Char) : List Char :=
  (s.foldl
    (fun acc c =>
      let c' := if acc.2 then c.toLower else c.toUpper
      (acc.1 ++ [c'], c.isAlpha))
    (([] : List Char), false)).1

/-- main.py line 136: `confidence_emoji = "🔴" if confidence == 'low' else
"🟡" if confidence == 'medium' else "🟢"`. -/
def confidence_emoji (c : List Char) : Char :=
  if c = ("low").data then '🔴'
  else if c = ("medium").data then '🟡'
  else '🟢'

/-- main.py lines 124-154: `format_appointment_message(appointment)`.
`now` is the rendered `strftime` text of `datetime.now(morocco_tz)`
(main.py lines 146-148); everything else is deterministic in the record. -/
def format_appointment_message (appointment : Record) (now : List Char) : List Char :=
  let message := ("🎯 **VISA APPOINTMENT AVAILABLE!**\n\n").data
  let message := message ++ ("📍 **Location:** ").data
      ++ (appointment.location.getD (("Italy Visa Center Morocco").data)) ++ ("\n").data
  let message := message ++ ("📅 **Date:** ").data
      ++ (appointment.date.getD (("Not specified").data)) ++ ("\n").data
  let message := message ++ ("⏰ **Time:** ").data
      ++ (appointment.time.getD (("Not specified").data)) ++ ("\n").data
  let message :=
    if truthy appointment.link then
      message ++ ("🔗 **Book Now:** ").data ++ (appointment.link.getD []) ++ ("\n").data
    else message
  let message :=
    if truthy appointment.confidence then
      message ++ [confidence_emoji (appointment.confidence.getD [])]
        ++ (" **Confidence:** ").data ++ pyTitle (appointment.confidence.getD []) ++ ("\n").data
    else message
  let message :=
    if truthy appointment.source then
      message ++ ("📊 **Source:** ").data ++ (appointment.source.getD []) ++ ("\n").data
    else message
  let message := message ++ ("\n⚡ **Action Required:** Log in to VFS Global immediately to book this slot!\n").data
  let message := message ++ ("🌐 **Website:** https://visa.vfsglobal.com/mar/fr/ita/dashboard\n").data
  let message := message ++ ("⏱️ **Found at:** ").data ++ now
  let message :=
    if truthy appointment.note then
      message ++ ("\n\n💡 **Note:** ").data ++ (appointment.note.getD [])
    else message
  message

/-- The empty appointment dict `{}`. -/
def emptyRecord : Record := {}

/-- Characters that can occur in the `strftime('%Y-%m-%d %H:%M:%S %Z')`
rendering of a Morocco-timezone timestamp (digits, space, dash, colon, and
the sign of the numeric `+01` zone designator). -/
def timestampSafe (c : Char) : Bool :=
  c.isDigit || c == ' ' || c == '-' || c == ':' || c == '+'

/-! ## The monitoring loop (main.py lines 30-122) -/

/-- LoopState: the mutable loop variables of `main` (main.py lines 48-51).
`last_check_time` holds the abstract time value of the last successful cycle. -/
structure LoopState where
  consecutive_errors : Nat
  use_enhanced_method : Bool
  last_check_time : Option Nat
deriving DecidableEq

/-- main.py lines 48-51: `last_check_time = None`, `consecutive_errors = 0`,
`use_enhanced_method = False`.  (`max_consecutive_errors = 5` is a constant.) -/
def initState : LoopState := ⟨0, false, none⟩

/-- Observable actions of one cycle: the two checker invocations and each
`telegram_notifier.send_message` call.  A send's `ok` flag records whether
the call returned normally (`true`) or raised (`false`). -/
inductive Event where
  | checkPrimary : Event
  | checkFallback : Event
  | sendRecord : Record → Bool → Event
  | sendWarning : Bool → Event
  | sendStop : Bool → Event
deriving DecidableEq

/-- The external world of one cycle: what the primary checker call would
return (or that it raises), what the fallback checker call would return
(or that it raises), and for the k-th `send_message` call of the cycle
(counting from 0 in call order) whether it returns normally. -/
structure CycleEnv where
  primary : Except Unit (List Record)
  fallback : Except Unit (List Record)
  sendOk : Nat → Bool

/-- Result of main.py lines 61-67: the appointment list gathered from the
primary method, the (possibly updated) `use_enhanced_method` flag, and the
events.  If the flag is already set the primary checker is not called;
if the call raises, the flag is set and the list stays empty. -/
structure PrimaryResult where
  appts : List Record
  useEnhanced : Bool
  events : List Event

def primaryStep (env : CycleEnv) (s : LoopState) : PrimaryResult :=
  if s.use_enhanced_method then ⟨[], true, []⟩
  else
    match env.primary with
    | Except.ok aps => ⟨aps, false, [Event.checkPrimary]⟩
    | Except.error _ => ⟨[], true, [Event.checkPrimary]⟩

/-- Result of main.py lines 69-76: the fallback checker runs when
`use_enhanced_method or not appointments`; a non-empty result is appended
(`appointments.extend`), and an exception is logged and absorbed. -/
structure FallbackResult where
  appts : List Record
  events : List Event

def fallbackStep (env : CycleEnv) (appts : List Record) (use : Bool) : FallbackResult :=
  if use || appts.isEmpty then
    match env.fallback with
    | Except.ok enh => ⟨if enh.isEmpty then appts else appts ++ enh, [Event.checkFallback]⟩
    | Except.error _ => ⟨appts, [Event.checkFallback]⟩
  else ⟨appts, []⟩

/-- Result of the notification loop, main.py lines 82-85. -/
structure NotifyResult where
  events : List Event
  nextIdx : Nat
  completed : Bool

/-- main.py lines 82-85: one `send_message` per appointment, in list order.
`k` is the index of the next send of the cycle.  A raising send aborts the
loop (the exception propagates to the handler at line 92): the remaining
records are neither formatted nor notified. -/
def notifyRecords (sendOk : Nat → Bool) : List Record → Nat → NotifyResult
  | [], k => ⟨[], k, true⟩
  | r :: rs, k =>
    if sendOk k then
      let nr := notifyRecords sendOk rs (k + 1)
      ⟨Event.sendRecord r true :: nr.events, nr.nextIdx, nr.completed⟩
    else ⟨[Event.sendRecord r false], k + 1, false⟩

/-- Outcome of one iteration of the `while` body (main.py lines 54-106). -/
inductive CycleOutcome where
  /-- The `try` block completed: lines 89-90 ran (counter reset, time stored). -/
  | ok : LoopState → List Event → CycleOutcome
  /-- The `except` handler at line 92 ran and the counter stayed below 5:
  the loop continues. -/
  | softFail : LoopState → List Event → CycleOutcome
  /-- The handler ran, the counter reached 5, and `break` executed (line 106). -/
  | stopBreak : LoopState → List Event → CycleOutcome
  /-- A `send_message` call inside the handler itself raised (line 99 or 105);
  nothing catches that exception inside the `while` loop, so it escapes. -/
  | escape : LoopState → List Event → CycleOutcome
deriving DecidableEq

def CycleOutcome.state : CycleOutcome → LoopState
  | .ok s _ => s
  | .softFail s _ => s
  | .stopBreak s _ => s
  | .escape s _ => s

def CycleOutcome.events : CycleOutcome → List Event
  | .ok _ ev => ev
  | .softFail _ ev => ev
  | .stopBreak _ ev => ev
  | .escape _ ev => ev

/-- `true` when the iteration's `try` block raised (any non-`ok` outcome). -/
def cycleRaised : CycleOutcome → Bool
  | .ok _ _ => false
  | _ => true

/-- main.py lines 101-106: `if consecutive_errors >= max_consecutive_errors:`
log, send the stop notification and `break`.  `s` already holds the
incremented counter; `k` is the index of the next send of the cycle. -/
def handleStop (sendOk : Nat → Bool) (k : Nat) (s : LoopState) (ev : List Event) : CycleOutcome :=
  if 5 ≤ s.consecutive_errors then
    if sendOk k then CycleOutcome.stopBreak s (ev ++ [Event.sendStop true])
    else CycleOutcome.escape s (ev ++ [Event.sendStop false])
  else CycleOutcome.softFail s ev

/-- main.py lines 92-106: the `except` handler of the cycle.  The counter is
incremented (line 93); at `>= 3` a warning notification is sent (line 99) —
if that send raises, nothing inside the loop catches it; then the stop check
(lines 101-106) runs. -/
def handleCycleError (sendOk : Nat → Bool) (k : Nat) (s : LoopState) (ev : List Event) : CycleOutcome :=
  if 3 ≤ s.consecutive_errors + 1 then
    if sendOk k then
      handleStop sendOk (k + 1) { s with consecutive_errors := s.consecutive_errors + 1 }
        (ev ++ [Event.sendWarning true])
    else
      CycleOutcome.escape { s with consecutive_errors := s.consecutive_errors + 1 }
        (ev ++ [Event.sendWarning false])
  else
    handleStop sendOk k { s with consecutive_errors := s.consecutive_errors + 1 } ev

/-- main.py lines 78-106: the notification phase of the cycle and, when a
send raises, the `except` handler.  `s1` is the loop state after lines 61-76
(the `use_enhanced_method` update already applied), `ev` the checker events,
`appts` the collected appointment list.  `if appointments:` guards the
notification loop; completing the `try` body runs lines 89-90 (counter reset,
`last_check_time = current_time`). -/
def runCycleNotify (sendOk : Nat → Bool) (t : Nat) (s1 : LoopState) (ev : List Event)
    (appts : List Record) : CycleOutcome :=
  if appts.isEmpty then
    CycleOutcome.ok { s1 with consecutive_errors := 0, last_check_time := some t } ev
  else
    if (notifyRecords sendOk appts 0).completed then
      CycleOutcome.ok { s1 with consecutive_errors := 0, last_check_time := some t }
        (ev ++ (notifyRecords sendOk appts 0).events)
    else
      handleCycleError sendOk (notifyRecords sendOk appts 0).nextIdx s1
        (ev ++ (notifyRecords sendOk appts 0).events)

/-- One iteration of the `while True:` body, main.py lines 54-106.
`t` is the abstract current time of the cycle (line 55). -/
def runCycle (env : CycleEnv) (t : Nat) (s : LoopState) : CycleOutcome :=
  runCycleNotify env.sendOk t
    { s with use_enhanced_method := (primaryStep env s).useEnhanced }
    ((primaryStep env s).events
      ++ (fallbackStep env (primaryStep env s).appts (primaryStep env s).useEnhanced).events)
    (fallbackStep env (primaryStep env s).appts (primaryStep env s).useEnhanced).appts

/-- Result of driving the loop over a finite list of cycle environments. -/
inductive LoopResult where
  /-- The supplied environments are exhausted and the loop is still live. -/
  | running : LoopState → List (List Event) → LoopResult
  /-- The loop exited through `break` (main.py line 106). -/
  | stopped : LoopState → List (List Event) → LoopResult
  /-- An exception escaped the `while` loop, reaching the outer handler
  (main.py line 115). -/
  | crashed : LoopState → List (List Event) → LoopResult
deriving DecidableEq

def LoopResult.state : LoopResult → LoopState
  | .running s _ => s
  | .stopped s _ => s
  | .crashed s _ => s

def LoopResult.trace : LoopResult → List (List Event)
  | .running _ tr => tr
  | .stopped _ tr => tr
  | .crashed _ tr => tr

def LoopResult.isCrashed : LoopResult → Bool
  | .crashed _ _ => true
  | _ => false

def consTrace (ev : List Event) : LoopResult → LoopResult
  | .running s tr => .running s (ev :: tr)
  | .stopped s tr => .stopped s (ev :: tr)
  | .crashed s tr => .crashed s (ev :: tr)

/-- The `while True:` loop (main.py line 53) driven over a list of cycle
environments, one per iteration, starting at time `t`. -/
def runLoopFrom (t : Nat) : List CycleEnv → LoopState → LoopResult
  | [], s => LoopResult.running s []
  | env :: rest, s =>
    match runCycle env t s with
    | CycleOutcome.ok s' ev => consTrace ev (runLoopFrom (t + 1) rest s')
    | CycleOutcome.softFail s' ev => consTrace ev (runLoopFrom (t + 1) rest s')
    | CycleOutcome.stopBreak s' ev => LoopResult.stopped s' [ev]
    | CycleOutcome.escape s' ev => LoopResult.crashed s' [ev]

/-- The loop started from the initial state of main.py lines 48-51. -/
def runLoop (envs : List CycleEnv) : LoopResult := runLoopFrom 0 envs initState

/-- Overall outcome of `main` after initialization (main.py lines 53-122),
ignoring the `KeyboardInterrupt` arm (external interruption, lines 112-114). -/
inductive MainResult where
  | stillRunning : LoopState → List (List Event) → MainResult
  /-- The loop broke at the error cap; `main` falls out of the loop. -/
  | returned : LoopState → List (List Event) → MainResult
  /-- The handler of main.py lines 115-122 ran: the error was logged
  critically, one notification send was attempted (its success recorded in
  the `Bool`), any failure of that send was swallowed (lines 120-121), and
  the original exception was re-raised (line 122). -/
  | raisedAfterHandling : LoopState → List (List Event) → Bool → MainResult
deriving DecidableEq

/-- main.py lines 115-122: the top-level `except Exception` handler.
`criticalSendOk` is whether the `send_message` at line 119 would return
normally; either way the `except: pass` at lines 120-121 swallows a failure
and line 122 re-raises the original exception. -/
def criticalHandler (s : LoopState) (tr : List (List Event)) (criticalSendOk : Bool) :
    MainResult :=
  MainResult.raisedAfterHandling s tr criticalSendOk

/-- `main` after initialization: run the loop; route an escaping exception
to the handler of lines 115-122. -/
def mainFrom (envs : List CycleEnv) (criticalSendOk : Bool) : MainResult :=
  match runLoop envs with
  | LoopResult.running s tr => MainResult.stillRunning s tr
  | LoopResult.stopped s tr => MainResult.returned s tr
  | LoopResult.crashed s tr => criticalHandler s tr criticalSendOk

/-! ## Event observations -/

def isRecordSend : Event → Bool
  | .sendRecord _ _ => true
  | _ => false

def isFallbackEvent : Event → Bool
  | .checkFallback => true
  | _ => false

def isWarningAttempt : Event → Bool
  | .sendWarning _ => true
  | _ => false

def isWarnSent : Event → Bool
  | .sendWarning true => true
  | _ => false

/-- Number of warning-notification send attempts in an event list. -/
def warnAttemptCount (l : List Event) : Nat := (l.filter isWarningAttempt).length

/-- Number of successful warning-notification sends in a whole run. -/
def traceWarnSent (res : LoopResult) : Nat :=
  ((res.trace).map fun ev => (ev.filter isWarnSent).length).sum

/-! ## Concrete records, environments and runs used as test inputs -/

/-- The literal text of the formatted message for the empty record, up to the
point where the timestamp is appended (no link, confidence, source or note
line is produced for `{}`). -/
def emptyMsgHead : List Char :=
  ("🎯 **VISA APPOINTMENT AVAILABLE!**\n\n📍 **Location:** Italy Visa Center Morocco\n📅 **Date:** Not specified\n⏰ **Time:** Not specified\n\n⚡ **Action Required:** Log in to VFS Global immediately to book this slot!\n🌐 **Website:** https://visa.vfsglobal.com/mar/fr/ita/dashboard\n⏱️ **Found at:** ").data

/-- A record with no fields, as returned by a checker. -/
def r0 : Record := {}

/-- A second record, distinguishable from `r0`. -/
def r1 : Record := { date := some (("2024-05-01").data) }

/-- A representative timestamp rendering. -/
def nowEx : List Char := ("2025-01-01 12:00:00 +01").data

/-- A cycle in which the primary checker finds one appointment, the record
notification send raises, and every later send of the cycle succeeds. -/
def envFail : CycleEnv := ⟨Except.ok [r0], Except.ok [], fun k => !(k == 0)⟩

/-- A cycle in which the primary checker finds one appointment and the
notifier is fully down: every send of the cycle raises. -/
def envNotifierDown : CycleEnv := ⟨Except.ok [r0], Except.ok [], fun _ => false⟩

/-- A cycle in which the primary checker raises. -/
def envPrimaryDown : CycleEnv := ⟨Except.error (), Except.ok [], fun _ => true⟩

/-- A cycle in which both checkers return no appointments. -/
def envQuiet : CycleEnv := ⟨Except.ok [], Except.ok [], fun _ => true⟩

/-- A cycle in which the primary checker returns nothing and the fallback
checker raises, while the notifier works. -/
def envFallbackErr : CycleEnv := ⟨Except.ok [], Except.error (), fun _ => true⟩

/-- A cycle in which the primary checker finds two appointments and the
notifier is down. -/
def envTwoRecords : CycleEnv := ⟨Except.ok [r0, r1], Except.ok [], fun _ => false⟩

/-- Four consecutive cycles that each raise (record send fails) while the
warning sends succeed: one failure streak reaching counter 4. -/
def envsFourFailures : List CycleEnv := List.replicate 4 envFail

/-- Five consecutive cycles that each raise while handler sends succeed:
one failure streak reaching the cap. -/
def envsFiveFailures : List CycleEnv := List.replicate 5 envFail

/-- Three consecutive cycles with the notifier fully down. -/
def envsNotifierDown : List CycleEnv := List.replicate 3 envNotifierDown

/-- The trace of the five-failure run. -/
def trFive : List (List Event) := (runLoop envsFiveFailures).trace

/-- The trace of the notifier-down run. -/
def trCrash : List (List Event) := (runLoop envsNotifierDown).trace

/-- A record whose confidence field is `high`. -/
def rConf : Record := { confidence := some (("high").data) }

/-! ## Helper lemmas about the handler (main.py lines 92-106) -/

lemma handleStop_state (sendOk : Nat → Bool) (k : Nat) (s : LoopState) (ev : List Event) :
    (handleStop sendOk k s ev).state = s := by
  unfold handleStop
  split
  · split <;> rfl
  · rfl

lemma handleStop_not_ok (sendOk : Nat → Bool) (k : Nat) (s : LoopState) (ev : List Event)
    (s' : LoopState) (ev' : List Event) :
    handleStop sendOk k s ev ≠ CycleOutcome.ok s' ev' := by
  unfold handleStop
  split
  · split <;> simp
  · simp

lemma handleStop_stopBreak (sendOk : Nat → Bool) (k : Nat) (s : LoopState) (ev : List Event)
    (s' : LoopState) (ev' : List Event)
    (h : handleStop sendOk k s ev = CycleOutcome.stopBreak s' ev') :
    s' = s ∧ 5 ≤ s.consecutive_errors := by
  unfold handleStop at h
  split at h
  · split at h
    · cases h; exact ⟨rfl, by assumption⟩
    · cases h
  · cases h

lemma handleStop_softFail (sendOk : Nat → Bool) (k : Nat) (s : LoopState) (ev : List Event)
    (s' : LoopState) (ev' : List Event)
    (h : handleStop sendOk k s ev = CycleOutcome.softFail s' ev') :
    s' = s ∧ s.consecutive_errors < 5 := by
  unfold handleStop at h
  split at h
  · split at h <;> cases h
  · cases h; exact ⟨rfl, by omega⟩

lemma handleStop_escape (sendOk : Nat → Bool) (k : Nat) (s : LoopState) (ev : List Event)
    (s' : LoopState) (ev' : List Event)
    (h : handleStop sendOk k s ev = CycleOutcome.escape s' ev') :
    s' = s ∧ 5 ≤ s.consecutive_errors := by
  unfold handleStop at h
  split at h
  · split at h
    · cases h
    · cases h; exact ⟨rfl, by assumption⟩
  · cases h

lemma handleCycleError_state (sendOk : Nat → Bool) (k : Nat) (s : LoopState) (ev : List Event) :
    (handleCycleError sendOk k s ev).state
      = { s with consecutive_errors := s.consecutive_errors + 1 } := by
  unfold handleCycleError
  split
  · split
    · exact handleStop_state ..
    · rfl
  · exact handleStop_state ..

lemma handleCycleError_not_ok (sendOk : Nat → Bool) (k : Nat) (s : LoopState) (ev : List Event)
    (s' : LoopState) (ev' : List Event) :
    handleCycleError sendOk k s ev ≠ CycleOutcome.ok s' ev' := by
  unfold handleCycleError
  split
  · split
    · exact handleStop_not_ok _ _ _ _ _ _
    · simp
  · exact handleStop_not_ok _ _ _ _ _ _

lemma cycleRaised_handleCycleError (sendOk : Nat → Bool) (k : Nat) (s : LoopState)
    (ev : List Event) : cycleRaised (handleCycleError sendOk k s ev) = true := by
  cases h : handleCycleError sendOk k s ev with
  | ok s' ev' => exact absurd h (handleCycleError_not_ok _ _ _ _ _ _)
  | softFail s' ev' => rfl
  | stopBreak s' ev' => rfl
  | escape s' ev' => rfl

lemma handleCycleError_softFail (sendOk : Nat → Bool) (k : Nat) (s : LoopState) (ev : List Event)
    (s' : LoopState) (ev' : List Event)
    (h : handleCycleError sendOk k s ev = CycleOutcome.softFail s' ev') :
    s'.consecutive_errors = s.consecutive_errors + 1 ∧ s'.consecutive_errors < 5 := by
  unfold handleCycleError at h
  split at h
  · split at h
    · rcases handleStop_softFail _ _ _ _ _ _ h with ⟨rfl, h5⟩
      exact ⟨rfl, h5⟩
    · cases h
  · rcases handleStop_softFail _ _ _ _ _ _ h with ⟨rfl, h5⟩
    exact ⟨rfl, h5⟩

lemma handleCycleError_stopBreak (sendOk : Nat → Bool) (k : Nat) (s : LoopState) (ev : List Event)
    (s' : LoopState) (ev' : List Event)
    (h : handleCycleError sendOk k s ev = CycleOutcome.stopBreak s' ev') :
    s'.consecutive_errors = s.consecutive_errors + 1 ∧ 5 ≤ s'.consecutive_errors := by
  unfold handleCycleError at h
  split at h
  · split at h
    · rcases handleStop_stopBreak _ _ _ _ _ _ h with ⟨rfl, h5⟩
      exact ⟨rfl, h5⟩
    · cases h
  · rcases handleStop_stopBreak _ _ _ _ _ _ h with ⟨rfl, h5⟩
    exact ⟨rfl, h5⟩

lemma handleCycleError_escape (sendOk : Nat → Bool) (k : Nat) (s : LoopState) (ev : List Event)
    (s' : LoopState) (ev' : List Event)
    (h : handleCycleError sendOk k s ev = CycleOutcome.escape s' ev') :
    s'.consecutive_errors = s.consecutive_errors + 1 ∧ 3 ≤ s'.consecutive_errors := by
  unfold handleCycleError at h
  split at h
  · split at h
    · rcases handleStop_escape _ _ _ _ _ _ h with ⟨rfl, h5⟩
      exact ⟨rfl, by omega⟩
    · cases h
      refine ⟨rfl, ?_⟩
      show 3 ≤ s.consecutive_errors + 1
      omega
  · rcases handleStop_escape _ _ _ _ _ _ h with ⟨rfl, h5⟩
    simp at h5
    omega

/-! ## Event bookkeeping lemmas -/

lemma warnAttemptCount_append (a b : List Event) :
    warnAttemptCount (a ++ b) = warnAttemptCount a + warnAttemptCount b := by
  simp [warnAttemptCount, List.filter_append]

lemma handleStop_filter (sendOk : Nat → Bool) (k : Nat) (s : LoopState) (ev : List Event)
    (p : Event → Bool) (hs : ∀ b, p (Event.sendStop b) = false) :
    (handleStop sendOk k s ev).events.filter p = ev.filter p := by
  unfold handleStop
  split
  · split <;> simp [CycleOutcome.events, List.filter_append, hs]
  · rfl

lemma handleCycleError_filter (sendOk : Nat → Bool) (k : Nat) (s : LoopState) (ev : List Event)
    (p : Event → Bool) (hw : ∀ b, p (Event.sendWarning b) = false)
    (hs : ∀ b, p (Event.sendStop b) = false) :
    (handleCycleError sendOk k s ev).events.filter p = ev.filter p := by
  unfold handleCycleError
  split
  · split
    · rw [handleStop_filter _ _ _ _ p hs]
      simp [List.filter_append, hw]
    · simp [CycleOutcome.events, List.filter_append, hw]
  · exact handleStop_filter _ _ _ _ p hs

lemma handleCycleError_warnCount (sendOk : Nat → Bool) (k : Nat) (s : LoopState)
    (ev : List Event) :
    warnAttemptCount (handleCycleError sendOk k s ev).events
      = warnAttemptCount ev + (if 3 ≤ s.consecutive_errors + 1 then 1 else 0) := by
  unfold handleCycleError handleStop
  by_cases h3 : 3 ≤ s.consecutive_errors + 1 <;>
    by_cases hk : sendOk k = true <;>
      by_cases h5 : 5 ≤ s.consecutive_errors + 1 <;>
        by_cases hk' : sendOk (k + 1) = true <;>
          simp [h3, hk, h5, hk', CycleOutcome.events, warnAttemptCount_append, warnAttemptCount,
            isWarningAttempt, List.filter_append]

lemma notifyRecords_events_record (sendOk : Nat → Bool) :
    ∀ (rs : List Record) (k : Nat) (e : Event),
      e ∈ (notifyRecords sendOk rs k).events → isRecordSend e = true := by
  intro rs
  induction rs with
  | nil => intro k e he; simp [notifyRecords] at he
  | cons r rs ih =>
    intro k e he
    unfold notifyRecords at he
    split at he
    · simp at he
      rcases he with rfl | he
      · rfl
      · exact ih _ _ he
    · simp at he
      subst he
      rfl

lemma notifyRecords_completed (sendOk : Nat → Bool) (hall : ∀ k, sendOk k = true) :
    ∀ (rs : List Record) (k : Nat), (notifyRecords sendOk rs k).completed = true := by
  intro rs
  induction rs with
  | nil => intro k; rfl
  | cons r rs ih =>
    intro k
    unfold notifyRecords
    rw [hall k]
    simpa using ih (k + 1)

lemma notifyRecords_fail_at (sendOk : Nat → Bool) :
    ∀ (rs : List Record) (k j : Nat) (hj : j < rs.length),
      (∀ i, i < j → sendOk (k + i) = true) → sendOk (k + j) = false →
      notifyRecords sendOk rs k =
        ⟨((rs.take j).map fun r => Event.sendRecord r true)
            ++ [Event.sendRecord (rs.get ⟨j, hj⟩) false],
          k + j + 1, false⟩ := by
  intro rs
  induction rs with
  | nil => intro k j hj; exact absurd hj (by simp)
  | cons r rs ih =>
    intro k j hj hlt hfail
    cases j with
    | zero =>
      unfold notifyRecords
      rw [show sendOk k = false by simpa using hfail]
      simp
    | succ j =>
      have h0 : sendOk k = true := by simpa using hlt 0 (Nat.succ_pos j)
      have hj' : j < rs.length := by simpa [Nat.succ_lt_succ_iff] using hj
      unfold notifyRecords
      rw [h0]
      have hrec := ih (k + 1) j hj'
        (fun i hi => by
          have := hlt (i + 1) (by omega)
          simpa [Nat.add_assoc, Nat.add_comm 1 i] using this)
        (by
          have := hfail
          simpa [Nat.add_assoc, Nat.add_comm 1 j] using this)
      simp only [hrec]
      simp [List.take_succ_cons]
      omega

/-- Events emitted by the record-notification loop keep that shape. -/
lemma filter_nil_of_recordSend (l : List Event) (p : Event → Bool)
    (hl : ∀ e ∈ l, isRecordSend e = true)
    (hp : ∀ r b, p (Event.sendRecord r b) = false) :
    l.filter p = [] := by
  induction l with
  | nil => rfl
  | cons e l ih =>
    have he := hl e (by simp)
    cases e with
    | sendRecord r b =>
      rw [List.filter_cons_of_neg (by simp [hp r b])]
      exact ih fun e' he' => hl e' (by simp [he'])
    | checkPrimary => simp [isRecordSend] at he
    | checkFallback => simp [isRecordSend] at he
    | sendWarning b => simp [isRecordSend] at he
    | sendStop b => simp [isRecordSend] at he

/-- Structural dichotomy of one cycle: either the `try` body completed
(lines 89-90 ran), or the handler of lines 92-106 ran on the events gathered
so far; in both cases the sends performed inside the `try` block after the
checker calls are record notifications. -/
lemma runCycleNotify_cases (sendOk : Nat → Bool) (t : Nat) (s1 : LoopState) (ev : List Event)
    (appts : List Record) :
    (∃ sendEv, (∀ e ∈ sendEv, isRecordSend e = true) ∧
      runCycleNotify sendOk t s1 ev appts
        = CycleOutcome.ok { s1 with consecutive_errors := 0, last_check_time := some t }
            (ev ++ sendEv)) ∨
    (∃ sendEv k, (∀ e ∈ sendEv, isRecordSend e = true) ∧
      runCycleNotify sendOk t s1 ev appts = handleCycleError sendOk k s1 (ev ++ sendEv)) := by
  unfold runCycleNotify
  split
  · exact Or.inl ⟨[], by simp, by simp⟩
  · split
    · exact Or.inl ⟨_, fun e he => notifyRecords_events_record _ _ _ _ he, rfl⟩
    · exact Or.inr ⟨_, _, fun e he => notifyRecords_events_record _ _ _ _ he, rfl⟩

lemma runCycle_cases (env : CycleEnv) (t : Nat) (s : LoopState) :
    (∃ sendEv, (∀ e ∈ sendEv, isRecordSend e = true) ∧
      runCycle env t s
        = CycleOutcome.ok
            ⟨0, (primaryStep env s).useEnhanced, some t⟩
            (((primaryStep env s).events
              ++ (fallbackStep env (primaryStep env s).appts (primaryStep env s).useEnhanced).events)
              ++ sendEv)) ∨
    (∃ sendEv k, (∀ e ∈ sendEv, isRecordSend e = true) ∧
      runCycle env t s = handleCycleError env.sendOk k
        { s with use_enhanced_method := (primaryStep env s).useEnhanced }
        (((primaryStep env s).events
          ++ (fallbackStep env (primaryStep env s).appts (primaryStep env s).useEnhanced).events)
          ++ sendEv)) := by
  unfold runCycle
  exact runCycleNotify_cases ..

lemma runCycle_ok_state (env : CycleEnv) (t : Nat) (s : LoopState) (s' : LoopState)
    (ev : List Event) (h : runCycle env t s = CycleOutcome.ok s' ev) :
    s' = ⟨0, (primaryStep env s).useEnhanced, some t⟩ := by
  rcases runCycle_cases env t s with ⟨sendEv, _, hok⟩ | ⟨sendEv, k, _, hfail⟩
  · rw [h] at hok
    exact congrArg CycleOutcome.state hok
  · rw [h] at hfail
    exact absurd hfail.symm (handleCycleError_not_ok _ _ _ _ _ _)

lemma runCycle_state_use (env : CycleEnv) (t : Nat) (s : LoopState) :
    (runCycle env t s).state.use_enhanced_method = (primaryStep env s).useEnhanced := by
  rcases runCycle_cases env t s with ⟨sendEv, _, hok⟩ | ⟨sendEv, k, _, hfail⟩
  · rw [hok]; rfl
  · rw [hfail, handleCycleError_state]

lemma runCycle_softFail_ce (env : CycleEnv) (t : Nat) (s : LoopState) (s' : LoopState)
    (ev : List Event) (h : runCycle env t s = CycleOutcome.softFail s' ev) :
    s'.consecutive_errors = s.consecutive_errors + 1 ∧ s'.consecutive_errors < 5 := by
  rcases runCycle_cases env t s with ⟨sendEv, _, hok⟩ | ⟨sendEv, k, _, hfail⟩
  · rw [h] at hok; cases hok
  · rw [h] at hfail
    have h2 := handleCycleError_softFail _ _ _ _ _ _ hfail.symm
    exact h2

lemma runCycle_stopBreak_ce (env : CycleEnv) (t : Nat) (s : LoopState) (s' : LoopState)
    (ev : List Event) (h : runCycle env t s = CycleOutcome.stopBreak s' ev) :
    s'.consecutive_errors = s.consecutive_errors + 1 ∧ 5 ≤ s'.consecutive_errors := by
  rcases runCycle_cases env t s with ⟨sendEv, _, hok⟩ | ⟨sendEv, k, _, hfail⟩
  · rw [h] at hok; cases hok
  · rw [h] at hfail
    have h2 := handleCycleError_stopBreak _ _ _ _ _ _ hfail.symm
    exact h2

lemma runCycle_escape_ce (env : CycleEnv) (t : Nat) (s : LoopState) (s' : LoopState)
    (ev : List Event) (h : runCycle env t s = CycleOutcome.escape s' ev) :
    s'.consecutive_errors = s.consecutive_errors + 1 ∧ 3 ≤ s'.consecutive_errors := by
  rcases runCycle_cases env t s with ⟨sendEv, _, hok⟩ | ⟨sendEv, k, _, hfail⟩
  · rw [h] at hok; cases hok
  · rw [h] at hfail
    have h2 := handleCycleError_escape _ _ _ _ _ _ hfail.symm
    exact h2

lemma runCycle_escape_last (env : CycleEnv) (t : Nat) (s : LoopState) (s' : LoopState)
    (ev : List Event) (h : runCycle env t s = CycleOutcome.escape s' ev) :
    s'.last_check_time = s.last_check_time := by
  rcases runCycle_cases env t s with ⟨sendEv, _, hok⟩ | ⟨sendEv, k, _, hfail⟩
  · rw [h] at hok; cases hok
  · rw [h] at hfail
    have := handleCycleError_state env.sendOk k
      { s with use_enhanced_method := (primaryStep env s).useEnhanced }
      (((primaryStep env s).events
        ++ (fallbackStep env (primaryStep env s).appts (primaryStep env s).useEnhanced).events)
        ++ sendEv)
    rw [← hfail] at this
    simpa [CycleOutcome.state] using congrArg LoopState.last_check_time this

lemma primaryStep_events_cases (env : CycleEnv) (s : LoopState) :
    (primaryStep env s).events = [] ∨ (primaryStep env s).events = [Event.checkPrimary] := by
  unfold primaryStep
  split
  · exact Or.inl rfl
  · rcases env.primary with aps | u <;> simp

lemma fallbackStep_events_cases (env : CycleEnv) (appts : List Record) (use : Bool) :
    (fallbackStep env appts use).events = []
      ∨ (fallbackStep env appts use).events = [Event.checkFallback] := by
  unfold fallbackStep
  split
  · rcases env.fallback with enh | u <;> simp
  · exact Or.inl rfl

lemma primaryStep_mono (env : CycleEnv) (s : LoopState) (h : s.use_enhanced_method = true) :
    (primaryStep env s).useEnhanced = true := by
  unfold primaryStep
  rw [h]
  simp

lemma primaryStep_of_ok (env : CycleEnv) (s : LoopState) (aps : List Record)
    (hu : s.use_enhanced_method = false) (hp : env.primary = Except.ok aps) :
    primaryStep env s = ⟨aps, false, [Event.checkPrimary]⟩ := by
  unfold primaryStep
  rw [hu, hp]
  simp

lemma primaryStep_of_err (env : CycleEnv) (s : LoopState)
    (hu : s.use_enhanced_method = false) (hp : env.primary = Except.error ()) :
    primaryStep env s = ⟨[], true, [Event.checkPrimary]⟩ := by
  unfold primaryStep
  rw [hu, hp]
  simp

lemma fallbackStep_skip (env : CycleEnv) (r : Record) (rs : List Record) :
    fallbackStep env (r :: rs) false = ⟨r :: rs, []⟩ := by
  unfold fallbackStep
  simp

lemma checkersEv_warnfree (env : CycleEnv) (s : LoopState) :
    warnAttemptCount ((primaryStep env s).events
      ++ (fallbackStep env (primaryStep env s).appts (primaryStep env s).useEnhanced).events)
      = 0 := by
  rcases primaryStep_events_cases env s with h | h <;>
    rcases fallbackStep_events_cases env (primaryStep env s).appts (primaryStep env s).useEnhanced
      with h' | h' <;>
    simp [h, h', warnAttemptCount, isWarningAttempt]

lemma sendEv_warnfree (l : List Event) (hl : ∀ e ∈ l, isRecordSend e = true) :
    warnAttemptCount l = 0 := by
  unfold warnAttemptCount
  rw [filter_nil_of_recordSend l isWarningAttempt hl (by intro r b; rfl)]
  rfl

lemma runCycle_warn_ok (env : CycleEnv) (t : Nat) (s : LoopState) (s' : LoopState)
    (ev : List Event) (h : runCycle env t s = CycleOutcome.ok s' ev) :
    warnAttemptCount ev = 0 := by
  rcases runCycle_cases env t s with ⟨sendEv, hs, hok⟩ | ⟨sendEv, k, hs, hfail⟩
  · rw [h] at hok
    injection hok with h1 h2
    rw [h2, warnAttemptCount_append, checkersEv_warnfree, sendEv_warnfree sendEv hs]
  · rw [h] at hfail
    exact absurd hfail.symm (handleCycleError_not_ok _ _ _ _ _ _)

lemma runCycle_warn_fail (env : CycleEnv) (t : Nat) (s : LoopState)
    (h : cycleRaised (runCycle env t s) = true) :
    warnAttemptCount (runCycle env t s).events
      = if 3 ≤ s.consecutive_errors + 1 then 1 else 0 := by
  rcases runCycle_cases env t s with ⟨sendEv, hs, hok⟩ | ⟨sendEv, k, hs, hfail⟩
  · rw [hok] at h
    simp [cycleRaised] at h
  · rw [hfail, handleCycleError_warnCount, warnAttemptCount_append, checkersEv_warnfree,
      sendEv_warnfree sendEv hs]
    simp

/-! ## Driving the loop -/

lemma consTrace_state (ev : List Event) (r : LoopResult) : (consTrace ev r).state = r.state := by
  cases r <;> rfl

lemma consTrace_stopped (ev : List Event) (r : LoopResult) (s : LoopState)
    (tr : List (List Event)) (h : consTrace ev r = LoopResult.stopped s tr) :
    ∃ tr', r = LoopResult.stopped s tr' ∧ tr = ev :: tr' := by
  cases r with
  | running s' tr' => cases h
  | stopped s' tr' => cases h; exact ⟨tr', rfl, rfl⟩
  | crashed s' tr' => cases h

lemma runLoopFrom_ok (t : Nat) (env : CycleEnv) (rest : List CycleEnv) (s : LoopState)
    (s' : LoopState) (ev : List Event) (h : runCycle env t s = CycleOutcome.ok s' ev) :
    runLoopFrom t (env :: rest) s = consTrace ev (runLoopFrom (t + 1) rest s') := by
  conv_lhs => rw [runLoopFrom]
  try rw [h]

lemma runLoopFrom_softFail (t : Nat) (env : CycleEnv) (rest : List CycleEnv) (s : LoopState)
    (s' : LoopState) (ev : List Event) (h : runCycle env t s = CycleOutcome.softFail s' ev) :
    runLoopFrom t (env :: rest) s = consTrace ev (runLoopFrom (t + 1) rest s') := by
  conv_lhs => rw [runLoopFrom]
  try rw [h]

lemma runLoopFrom_stopBreak (t : Nat) (env : CycleEnv) (rest : List CycleEnv) (s : LoopState)
    (s' : LoopState) (ev : List Event) (h : runCycle env t s = CycleOutcome.stopBreak s' ev) :
    runLoopFrom t (env :: rest) s = LoopResult.stopped s' [ev] := by
  conv_lhs => rw [runLoopFrom]
  try rw [h]

lemma runLoopFrom_escape (t : Nat) (env : CycleEnv) (rest : List CycleEnv) (s : LoopState)
    (s' : LoopState) (ev : List Event) (h : runCycle env t s = CycleOutcome.escape s' ev) :
    runLoopFrom t (env :: rest) s = LoopResult.crashed s' [ev] := by
  conv_lhs => rw [runLoopFrom]
  try rw [h]

/-- From any state with counter at most 4, a `break` exit carries counter
exactly 5 (the counter moves by single increments and the break test fires
at once when 5 is reached). -/
lemma runLoopFrom_stopped_ce : ∀ (envs : List CycleEnv) (t : Nat) (s s' : LoopState)
    (tr : List (List Event)), s.consecutive_errors ≤ 4 →
    runLoopFrom t envs s = LoopResult.stopped s' tr → s'.consecutive_errors = 5 := by
  intro envs
  induction envs with
  | nil =>
    intro t s s' tr h hr
    cases hr
  | cons env rest ih =>
    intro t s s' tr h hr
    cases hE : runCycle env t s with
    | ok s1 ev =>
      rw [runLoopFrom_ok t env rest s s1 ev hE] at hr
      rcases consTrace_stopped _ _ _ _ hr with ⟨tr', hr', rfl⟩
      refine ih (t + 1) s1 s' tr' ?_ hr'
      rw [runCycle_ok_state env t s s1 ev hE]
      simp
    | softFail s1 ev =>
      rw [runLoopFrom_softFail t env rest s s1 ev hE] at hr
      rcases consTrace_stopped _ _ _ _ hr with ⟨tr', hr', rfl⟩
      have hce := runCycle_softFail_ce env t s s1 ev hE
      exact ih (t + 1) s1 s' tr' (by omega) hr'
    | stopBreak s1 ev =>
      rw [runLoopFrom_stopBreak t env rest s s1 ev hE] at hr
      cases hr
      have hce := runCycle_stopBreak_ce env t s _ _ hE
      omega
    | escape s1 ev =>
      rw [runLoopFrom_escape t env rest s s1 ev hE] at hr
      cases hr

/-- Once `use_enhanced_method` is set it stays set for the rest of the run. -/
lemma runLoopFrom_use_mono : ∀ (envs : List CycleEnv) (t : Nat) (s : LoopState),
    s.use_enhanced_method = true →
    ((runLoopFrom t envs s).state).use_enhanced_method = true := by
  intro envs
  induction envs with
  | nil => intro t s h; exact h
  | cons env rest ih =>
    intro t s h
    have huse : (runCycle env t s).state.use_enhanced_method = true := by
      rw [runCycle_state_use]
      exact primaryStep_mono env s h
    cases hE : runCycle env t s with
    | ok s1 ev =>
      rw [runLoopFrom_ok t env rest s s1 ev hE, consTrace_state]
      refine ih (t + 1) s1 ?_
      rw [hE] at huse
      exact huse
    | softFail s1 ev =>
      rw [runLoopFrom_softFail t env rest s s1 ev hE, consTrace_state]
      refine ih (t + 1) s1 ?_
      rw [hE] at huse
      exact huse
    | stopBreak s1 ev =>
      rw [runLoopFrom_stopBreak t env rest s s1 ev hE]
      rw [hE] at huse
      exact huse
    | escape s1 ev =>
      rw [runLoopFrom_escape t env rest s s1 ev hE]
      rw [hE] at huse
      exact huse

/-! ## Substring reasoning for the message formatter -/

/-- A needle occurring in `m ++ [x]` occurs in `m` or contains `x`. -/
lemma infix_concat_cases {α : Type} (n m : List α) (x : α) (h : n <:+: m ++ [x]) :
    n <:+: m ∨ x ∈ n := by
  obtain ⟨s, t, hst⟩ := h
  rcases List.eq_nil_or_concat' t with rfl | ⟨t', y, rfl⟩
  · rcases List.eq_nil_or_concat' n with rfl | ⟨n', z, rfl⟩
    · exact Or.inl List.nil_infix
    · right
      have h2 := congrArg List.reverse hst
      simp [List.reverse_append] at h2
      simp [h2.1]
  · left
    have h2 := congrArg List.reverse hst
    simp [List.reverse_append] at h2
    refine ⟨s, t', ?_⟩
    have h3 := congrArg List.reverse h2.2
    have h4 : m = s ++ (n ++ t') := by simpa [List.reverse_append] using h3.symm
    rw [List.append_assoc]
    exact h4.symm

/-- If every element of the needle fails `p`, every element of the appended
tail satisfies `p`, and the needle does not occur in the head, then the
needle does not occur in the concatenation. -/
lemma not_infix_append_of_disjoint {α : Type} (p : α → Bool) (n : List α)
    (h1 : ∀ c ∈ n, p c = false) :
    ∀ (b a : List α), (∀ c ∈ b, p c = true) → ¬ n <:+: a → ¬ n <:+: a ++ b := by
  intro b
  induction b using List.reverseRecOn with
  | nil => intro a hb ha; simpa using ha
  | append_singleton b' x ih =>
    intro a hb ha hin
    rw [← List.append_assoc] at hin
    rcases infix_concat_cases n (a ++ b') x hin with hin' | hx
    · exact ih a (fun c hc => hb c (by simp [hc])) ha hin'
    · have hpx : p x = true := hb x (by simp)
      rw [h1 x hx] at hpx
      cases hpx

lemma filter_recordSend_map (l : List Record) :
    (l.map fun a => Event.sendRecord a true).filter isRecordSend
      = l.map fun a => Event.sendRecord a true := by
  induction l with
  | nil => rfl
  | cons a l ih => simp [List.filter_cons, isRecordSend, ih]

/-! ## The claims -/

/-- C1 counterexample: four consecutive failing cycles form a single failure
streak (the final counter is 4, so it was never reset), yet a warning
notification is successfully sent twice — once when `consecutive_errors`
reaches 3 and again at 4 — refuting "sent exactly once, on the cycle where
the counter first reaches 3, and not on any later cycle of the streak". -/
theorem C1_counterexample :
    traceWarnSent (runLoop envsFourFailures) = 2 ∧
    (runLoop envsFourFailures).state.consecutive_errors = 4 := by
  constructor <;> rfl

/-- C1 (amended): main.py line 98 tests `consecutive_errors >= 3` on every
failing cycle, so a cycle whose `try` block raises attempts exactly one
warning send whenever the incremented counter is at least 3 — that is, on
the 3rd, 4th and 5th cycle of a streak, not only when the counter first
reaches 3 — and a cycle that completes attempts none. -/
theorem C1_warning_on_every_failing_cycle_from_three :
    (∀ (env : CycleEnv) (t : Nat) (s s' : LoopState) (ev : List Event),
      runCycle env t s = CycleOutcome.ok s' ev → warnAttemptCount ev = 0) ∧
    (∀ (env : CycleEnv) (t : Nat) (s : LoopState),
      cycleRaised (runCycle env t s) = true →
      warnAttemptCount (runCycle env t s).events
        = if 3 ≤ s.consecutive_errors + 1 then 1 else 0) :=
  ⟨runCycle_warn_ok, runCycle_warn_fail⟩

/-- C1 witness: a quiet cycle attempts no warning; a failing cycle with
previous counter 2 (incremented to 3) attempts exactly one. -/
theorem C1_witness :
    warnAttemptCount [Event.checkPrimary, Event.checkFallback] = 0 ∧
    warnAttemptCount (runCycle envFail 0 ⟨2, false, none⟩).events = 1 :=
  ⟨C1_warning_on_every_failing_cycle_from_three.1 envQuiet 0 initState
      ⟨0, false, some 0⟩ [Event.checkPrimary, Event.checkFallback] rfl,
   by
     have h := C1_warning_on_every_failing_cycle_from_three.2 envFail 0 ⟨2, false, none⟩ rfl
     simpa using h⟩

/-- C2 counterexample: with the notifier down, the third consecutive failing
cycle raises inside the error handler (the warning send at line 99) and the
loop terminates with `consecutive_errors = 3`: termination without `break`,
below the threshold, and without external interruption — refuting "does not
terminate for any other reason except external interruption". -/
theorem C2_counterexample :
    (runLoop envsNotifierDown).isCrashed = true ∧
    (runLoop envsNotifierDown).state.consecutive_errors = 3 := by
  constructor <;> rfl

/-- C2 (amended): the `break` at main.py line 106 fires only on a cycle
whose incremented counter reaches at least 5, and on any run from the
initial state a `break` exit carries counter exactly 5 — the loop never
breaks with the counter below 5.  (The loop can, however, additionally
terminate when a notification send inside the error handler raises, as the
counterexample shows; "no other reason than the cap or external
interruption" holds only when handler sends succeed.) -/
theorem C2_break_exactly_at_five :
    (∀ (env : CycleEnv) (t : Nat) (s s' : LoopState) (ev : List Event),
      runCycle env t s = CycleOutcome.stopBreak s' ev →
      s'.consecutive_errors = s.consecutive_errors + 1 ∧ 5 ≤ s'.consecutive_errors) ∧
    (∀ (envs : List CycleEnv) (s : LoopState) (tr : List (List Event)),
      runLoop envs = LoopResult.stopped s tr → s.consecutive_errors = 5) := by
  constructor
  · intro env t s s' ev h
    exact runCycle_stopBreak_ce env t s s' ev h
  · intro envs s tr h
    exact runLoopFrom_stopped_ce envs 0 initState s tr (by simp [initState]) h

/-- C2 witness: five consecutive failing cycles (handler sends succeeding)
break the loop with counter exactly 5. -/
theorem C2_witness :
    runLoop envsFiveFailures = LoopResult.stopped ⟨5, false, none⟩ trFive ∧
    (⟨5, false, none⟩ : LoopState).consecutive_errors = 5 :=
  ⟨rfl, C2_break_exactly_at_five.2 envsFiveFailures ⟨5, false, none⟩ trFive rfl⟩

/-- C3: `use_enhanced_method` is a one-way switch: it starts false (main.py
line 51), a raising PrimaryChecker call sets it to true (line 67), and once
true it remains true for every later cycle of the run; no cycle ever sets it
back to false. -/
theorem C3_use_enhanced_one_way :
    initState.use_enhanced_method = false ∧
    (∀ (env : CycleEnv) (t : Nat) (s : LoopState), s.use_enhanced_method = true →
      ((runCycle env t s).state).use_enhanced_method = true) ∧
    (∀ (env : CycleEnv) (t : Nat) (s : LoopState), s.use_enhanced_method = false →
      env.primary = Except.error () →
      ((runCycle env t s).state).use_enhanced_method = true) ∧
    (∀ (envs : List CycleEnv) (t : Nat) (s : LoopState), s.use_enhanced_method = true →
      ((runLoopFrom t envs s).state).use_enhanced_method = true) := by
  refine ⟨rfl, ?_, ?_, ?_⟩
  · intro env t s h
    rw [runCycle_state_use]
    exact primaryStep_mono env s h
  · intro env t s hu hp
    rw [runCycle_state_use, primaryStep_of_err env s hu hp]
  · intro envs t s h
    exact runLoopFrom_use_mono envs t s h

/-- C3 witness: a primary failure in the first cycle sets the flag, and the
flag survives a further cycle from a state where it is already set. -/
theorem C3_witness :
    ((runCycle envPrimaryDown 0 initState).state).use_enhanced_method = true ∧
    ((runLoopFrom 1 [envQuiet] ⟨0, true, none⟩).state).use_enhanced_method = true :=
  ⟨C3_use_enhanced_one_way.2.2.1 envPrimaryDown 0 initState rfl rfl,
   C3_use_enhanced_one_way.2.2.2 [envQuiet] 1 ⟨0, true, none⟩ rfl⟩

/-- C4: in every cycle where `use_enhanced_method` is false and the primary
checker succeeds with a non-empty record list, the fallback checker is not
invoked that cycle (the guard at main.py line 69 is false). -/
theorem C4_no_fallback_on_primary_success :
    ∀ (env : CycleEnv) (t : Nat) (s : LoopState) (aps : List Record),
      s.use_enhanced_method = false → env.primary = Except.ok aps → aps ≠ [] →
      ((runCycle env t s).events).filter isFallbackEvent = [] := by
  intro env t s aps hu hp hne
  rcases aps with _ | ⟨r, rs⟩
  · exact absurd rfl hne
  have hps := primaryStep_of_ok env s (r :: rs) hu hp
  rcases runCycle_cases env t s with ⟨sendEv, hsend, hok⟩ | ⟨sendEv, k, hsend, hfail⟩
  · rw [hok]
    simp [CycleOutcome.events, hps, fallbackStep_skip, List.filter_append, isFallbackEvent,
      filter_nil_of_recordSend sendEv isFallbackEvent hsend (fun a b => rfl)]
  · rw [hfail, handleCycleError_filter _ _ _ _ isFallbackEvent (fun b => rfl) (fun b => rfl)]
    simp [hps, fallbackStep_skip, List.filter_append, isFallbackEvent,
      filter_nil_of_recordSend sendEv isFallbackEvent hsend (fun a b => rfl)]

/-- C4 witness: a cycle whose primary checker returns one record (flag off)
emits no fallback invocation. -/
theorem C4_witness :
    ((runCycle envFail 0 initState).events).filter isFallbackEvent = [] :=
  C4_no_fallback_on_primary_success envFail 0 initState [r0] rfl rfl (by simp)

/-- C5: a FallbackChecker failure neither increments `consecutive_errors`
nor aborts the cycle (main.py lines 75-76 absorb it), and every cycle whose
`try` block completes resets `consecutive_errors` to 0 (line 90), regardless
of whether the fallback failed inside that cycle. -/
theorem C5_fallback_failure_harmless :
    (∀ (env : CycleEnv) (t : Nat) (s s' : LoopState) (ev : List Event),
      runCycle env t s = CycleOutcome.ok s' ev → s'.consecutive_errors = 0) ∧
    (∀ (env : CycleEnv) (t : Nat) (s : LoopState),
      env.fallback = Except.error () → (∀ k, env.sendOk k = true) →
      ∃ s' ev, runCycle env t s = CycleOutcome.ok s' ev) := by
  constructor
  · intro env t s s' ev h
    rw [runCycle_ok_state env t s s' ev h]
  · intro env t s hfb hsend
    unfold runCycle runCycleNotify
    split
    · exact ⟨_, _, rfl⟩
    · rw [if_pos (notifyRecords_completed env.sendOk hsend _ 0)]
      exact ⟨_, _, rfl⟩

/-- C5 witness: a cycle whose fallback raises (primary returning nothing,
notifier up) still completes, with the counter reset to 0. -/
theorem C5_witness :
    (∃ s' ev, runCycle envFallbackErr 0 initState = CycleOutcome.ok s' ev) ∧
    (⟨0, false, some 0⟩ : LoopState).consecutive_errors = 0 :=
  ⟨C5_fallback_failure_harmless.2 envFallbackErr 0 initState rfl (fun k => rfl),
   C5_fallback_failure_harmless.1 envFallbackErr 0 initState ⟨0, false, some 0⟩
     [Event.checkPrimary, Event.checkFallback] rfl⟩

set_option maxRecDepth 40000

/-- C6: `format_appointment_message` on the empty record returns (without
raising — every access in main.py lines 127-129 uses a `.get` default and
every optional block is guarded) a text containing the default location
"Italy Visa Center Morocco", the date line and the time line both reading
"Not specified", and no confidence, source or note line — none of the words
"Confidence", "Source", "Note" occurs — for any timestamp rendering made of
digits, spaces, dashes, colons and plus signs. -/
theorem C6_empty_record_message (now : List Char)
    (hnow : ∀ c ∈ now, timestampSafe c = true) :
    (("Italy Visa Center Morocco").data <:+: format_appointment_message emptyRecord now) ∧
    (("📅 **Date:** Not specified\n").data <:+: format_appointment_message emptyRecord now) ∧
    (("⏰ **Time:** Not specified\n").data <:+: format_appointment_message emptyRecord now) ∧
    ¬ (("Confidence").data <:+: format_appointment_message emptyRecord now) ∧
    ¬ (("Source").data <:+: format_appointment_message emptyRecord now) ∧
    ¬ (("Note").data <:+: format_appointment_message emptyRecord now) := by
  have hfmt : format_appointment_message emptyRecord now = emptyMsgHead ++ now := rfl
  refine ⟨?_, ?_, ?_, ?_, ?_, ?_⟩
  · exact ⟨("🎯 **VISA APPOINTMENT AVAILABLE!**\n\n📍 **Location:** ").data,
      ("\n📅 **Date:** Not specified\n⏰ **Time:** Not specified\n\n⚡ **Action Required:** Log in to VFS Global immediately to book this slot!\n🌐 **Website:** https://visa.vfsglobal.com/mar/fr/ita/dashboard\n⏱️ **Found at:** ").data ++ now,
      rfl⟩
  · exact ⟨("🎯 **VISA APPOINTMENT AVAILABLE!**\n\n📍 **Location:** Italy Visa Center Morocco\n").data,
      ("⏰ **Time:** Not specified\n\n⚡ **Action Required:** Log in to VFS Global immediately to book this slot!\n🌐 **Website:** https://visa.vfsglobal.com/mar/fr/ita/dashboard\n⏱️ **Found at:** ").data ++ now,
      rfl⟩
  · exact ⟨("🎯 **VISA APPOINTMENT AVAILABLE!**\n\n📍 **Location:** Italy Visa Center Morocco\n📅 **Date:** Not specified\n").data,
      ("\n⚡ **Action Required:** Log in to VFS Global immediately to book this slot!\n🌐 **Website:** https://visa.vfsglobal.com/mar/fr/ita/dashboard\n⏱️ **Found at:** ").data ++ now,
      rfl⟩
  · rw [hfmt]
    exact not_infix_append_of_disjoint timestampSafe (("Confidence").data) (by decide)
      now emptyMsgHead hnow (by decide)
  · rw [hfmt]
    exact not_infix_append_of_disjoint timestampSafe (("Source").data) (by decide)
      now emptyMsgHead hnow (by decide)
  · rw [hfmt]
    exact not_infix_append_of_disjoint timestampSafe (("Note").data) (by decide)
      now emptyMsgHead hnow (by decide)

/-- C6 witness: at a concrete timestamp, the empty-record message contains
the default location and no confidence word. -/
theorem C6_witness :
    (∀ c ∈ nowEx, timestampSafe c = true) ∧
    (("Italy Visa Center Morocco").data <:+: format_appointment_message emptyRecord nowEx) ∧
    ¬ (("Confidence").data <:+: format_appointment_message emptyRecord nowEx) :=
  ⟨by decide, (C6_empty_record_message nowEx (by decide)).1,
   (C6_empty_record_message nowEx (by decide)).2.2.2.1⟩

/-- C7: when an exception escapes the monitoring loop, the top-level handler
(main.py lines 115-122) logs it critically, attempts exactly one
notification send, swallows any failure of that send (the bare
`except: pass` at lines 120-121), and re-raises the original exception
(line 122): the result is a re-raise with the same loop state and trace for
either outcome `b` of the notification send. -/
theorem C7_top_level_reraise :
    ∀ (envs : List CycleEnv) (b : Bool) (s : LoopState) (tr : List (List Event)),
      runLoop envs = LoopResult.crashed s tr →
      mainFrom envs b = MainResult.raisedAfterHandling s tr b := by
  intro envs b s tr h
  unfold mainFrom
  rw [h]
  rfl

/-- C7 witness: the notifier-down run reaches the top-level handler and
re-raises whether the critical-error send succeeds or fails. -/
theorem C7_witness :
    mainFrom envsNotifierDown false
        = MainResult.raisedAfterHandling ⟨3, false, none⟩ trCrash false ∧
    mainFrom envsNotifierDown true
        = MainResult.raisedAfterHandling ⟨3, false, none⟩ trCrash true :=
  ⟨C7_top_level_reraise envsNotifierDown false ⟨3, false, none⟩ trCrash rfl,
   C7_top_level_reraise envsNotifierDown true ⟨3, false, none⟩ trCrash rfl⟩

/-- C8: if the notifier raises while sending the warning notification
(main.py line 99, due at counter ≥ 3) or the stop notification (line 105,
due at counter ≥ 5) inside the cycle's error handler, the per-cycle handler
does not catch it: the handler yields an escaping exception, and that
exception terminates the monitoring loop regardless of any remaining cycles
— in particular even when the counter is still below 5. -/
theorem C8_handler_send_failure_escapes :
    (∀ (sendOk : Nat → Bool) (k : Nat) (s : LoopState) (ev : List Event),
      3 ≤ s.consecutive_errors + 1 → sendOk k = false →
      handleCycleError sendOk k s ev
        = CycleOutcome.escape { s with consecutive_errors := s.consecutive_errors + 1 }
            (ev ++ [Event.sendWarning false])) ∧
    (∀ (sendOk : Nat → Bool) (k : Nat) (s : LoopState) (ev : List Event),
      5 ≤ s.consecutive_errors + 1 → sendOk k = true → sendOk (k + 1) = false →
      handleCycleError sendOk k s ev
        = CycleOutcome.escape { s with consecutive_errors := s.consecutive_errors + 1 }
            ((ev ++ [Event.sendWarning true]) ++ [Event.sendStop false])) ∧
    (∀ (t : Nat) (env : CycleEnv) (rest : List CycleEnv) (s s' : LoopState) (ev : List Event),
      runCycle env t s = CycleOutcome.escape s' ev →
      runLoopFrom t (env :: rest) s = LoopResult.crashed s' [ev]) := by
  refine ⟨?_, ?_, ?_⟩
  · intro sendOk k s ev h3 hk
    simp [handleCycleError, h3, hk]
  · intro sendOk k s ev h5 hk hk'
    simp [handleCycleError, handleStop, hk, hk', h5,
      show 3 ≤ s.consecutive_errors + 1 by omega]
  · intro t env rest s s' ev h
    exact runLoopFrom_escape t env rest s s' ev h

/-- C8 witness: with previous counter 2 and the notifier down, the handler
escapes at counter 3, and the whole loop terminates crashed at 3 < 5. -/
theorem C8_witness :
    handleCycleError (fun _ => false) 0 ⟨2, false, none⟩ []
        = CycleOutcome.escape ⟨3, false, none⟩ [Event.sendWarning false] ∧
    runLoopFrom 0 [envNotifierDown] ⟨2, false, none⟩
        = LoopResult.crashed ⟨3, false, none⟩
            [[Event.checkPrimary, Event.sendRecord r0 false, Event.sendWarning false]] ∧
    (3 : Nat) < 5 :=
  ⟨C8_handler_send_failure_escapes.1 (fun _ => false) 0 ⟨2, false, none⟩ [] (by decide) rfl,
   C8_handler_send_failure_escapes.2.2 0 envNotifierDown [] ⟨2, false, none⟩ ⟨3, false, none⟩
     [Event.checkPrimary, Event.sendRecord r0 false, Event.sendWarning false] rfl,
   by omega⟩

/-- C9: if the notifier raises while sending the message for one record of
the cycle, the remaining records are neither formatted nor notified (the
exception aborts the `for` loop at main.py lines 82-85), the cycle's
`last_check_time` update and counter reset (lines 89-90) do not happen, and
the handler increments `consecutive_errors` by exactly one. -/
theorem C9_record_send_failure_aborts_cycle :
    ∀ (env : CycleEnv) (t : Nat) (s : LoopState) (aps : List Record) (j : Nat)
      (hj : j < aps.length),
      s.use_enhanced_method = false → env.primary = Except.ok aps → aps ≠ [] →
      (∀ i, i < j → env.sendOk i = true) → env.sendOk j = false →
      ((runCycle env t s).state).consecutive_errors = s.consecutive_errors + 1 ∧
      ((runCycle env t s).state).last_check_time = s.last_check_time ∧
      ((runCycle env t s).events).filter isRecordSend
        = ((aps.take j).map fun a => Event.sendRecord a true)
            ++ [Event.sendRecord (aps.get ⟨j, hj⟩) false] := by
  intro env t s aps j hj hu hp hne hsends hfail
  rcases aps with _ | ⟨r, rs⟩
  · exact absurd rfl hne
  have hps := primaryStep_of_ok env s (r :: rs) hu hp
  have hnr := notifyRecords_fail_at env.sendOk (r :: rs) 0 j hj
    (fun i hi => by simpa using hsends i hi) (by simpa using hfail)
  have hstep : runCycle env t s
      = runCycleNotify env.sendOk t { s with use_enhanced_method := false }
          ([Event.checkPrimary] ++ ([] : List Event)) (r :: rs) := by
    simp only [runCycle, hps, fallbackStep_skip]
  have hnotify : runCycleNotify env.sendOk t { s with use_enhanced_method := false }
      ([Event.checkPrimary] ++ ([] : List Event)) (r :: rs)
      = handleCycleError env.sendOk (0 + j + 1) { s with use_enhanced_method := false }
          (([Event.checkPrimary] ++ ([] : List Event)) ++
            ((((r :: rs).take j).map fun a => Event.sendRecord a true)
              ++ [Event.sendRecord ((r :: rs).get ⟨j, hj⟩) false])) := by
    unfold runCycleNotify
    rw [hnr]
    simp
  refine ⟨?_, ?_, ?_⟩
  · rw [hstep, hnotify, handleCycleError_state]
  · rw [hstep, hnotify, handleCycleError_state]
  · rw [hstep, hnotify,
      handleCycleError_filter _ _ _ _ isRecordSend (fun b => rfl) (fun b => rfl)]
    simp only [List.filter_append, filter_recordSend_map]
    rfl

/-- C9 witness: two records found, the first send raises: only the first
record is notified, the counter becomes 1 and `last_check_time` stays
`none`. -/
theorem C9_witness :
    ((runCycle envTwoRecords 0 initState).state).consecutive_errors = 0 + 1 ∧
    ((runCycle envTwoRecords 0 initState).state).last_check_time = none ∧
    ((runCycle envTwoRecords 0 initState).events).filter isRecordSend
      = [Event.sendRecord r0 false] := by
  have h := C9_record_send_failure_aborts_cycle envTwoRecords 0 initState [r0, r1] 0
    (by decide) rfl rfl (by simp) (fun i hi => absurd hi (Nat.not_lt_zero i)) rfl
  simpa using h

/-- C10: for every record whose confidence field is present and non-empty,
the formatter (total in the embedding; the source guards the access at
main.py line 135) puts the glyph of line 136 into the message, and that
glyph is chosen purely by string comparison: red for "low", yellow for
"medium", green for every other value. -/
theorem C10_confidence_glyph :
    ∀ (r : Record) (now c : List Char), r.confidence = some c → c ≠ [] →
      (confidence_emoji c ∈ format_appointment_message r now ∧
        confidence_emoji c
          = (if c = ("low").data then '🔴'
             else if c = ("medium").data then '🟡' else '🟢')) := by
  intro r now c hc hne
  have htr : truthy (some c) = true := by
    cases c with
    | nil => exact absurd rfl hne
    | cons a l => rfl
  refine ⟨?_, rfl⟩
  simp only [format_appointment_message, hc, htr, Option.getD_some, eq_self_iff_true, if_true]
  split_ifs <;>
    simp only [List.mem_append, List.mem_cons, eq_self_iff_true, true_or, or_true]

/-- C10 witness: a record with confidence "high" gets the green glyph in its
message. -/
theorem C10_witness :
    confidence_emoji (("high").data) ∈ format_appointment_message rConf nowEx ∧
    confidence_emoji (("high").data)
      = (if ("high").data = ("low").data then '🔴'
         else if ("high").data = ("medium").data then '🟡' else '🟢') :=
  C10_confidence_glyph rConf nowEx (("high").data) rfl (by decide)
